import Mathlib

/-!
A verification development for the lost-and-found backend (server.js).

The server is an Express application over a MongoDB collection of Item
documents, with a multer disk-storage upload stage for an optional image.
We embed the request pipeline shallowly:

* `Item` mirrors the mongoose itemSchema (id is the generated ObjectId).
* `DB` is the observable server state: the stored Item documents, the
  counter feeding ObjectId generation, and the names written to the
  uploads blob store.
* `handlePost`, `handleGet`, `handleDelete` embed the three route
  handlers, with the external services (disk write, database call)
  represented by explicit failure parameters: `none` means the service
  call succeeds, `some detail` means it fails with that internal detail.
* `errorMiddleware` embeds the final error-handling middleware together
  with the Express fallback handler that terminates an error not matched
  by it.
-/

/-- An uploaded file as seen by the multer stage before storage:
only its original client-side name matters to the pipeline. -/
structure UploadedFile where
  originalname : String
deriving Repr, DecidableEq

/-- The file object attached to the request by multer after a successful
disk write (`req.file`): the handler only reads its stored `filename`. -/
structure StoredFile where
  filename : String
deriving Repr, DecidableEq

/-- One stored Item document, mirroring the mongoose `itemSchema`:
item_name, description, location, contact_number, type, image_url are
optional strings; reported_at defaults to the save time (Date.now,
modelled as a Nat of milliseconds); `id` is the generated ObjectId. -/
structure Item where
  id : String
  item_name : Option String
  description : Option String
  location : Option String
  contact_number : Option String
  «type» : Option String
  image_url : Option String
  reported_at : Nat
deriving Repr, DecidableEq

/-- The observable server-side state: the Item collection (in insertion
order), the counter from which the next ObjectId is generated, and the
names of the files written to the uploads directory (the blob store). -/
structure DB where
  items : List Item
  nextId : Nat
  blobs : List String
deriving Repr, DecidableEq

/-- The JSON bodies the server produces, by shape. -/
inductive RespBody where
  /-- A confirmation object with a single message field. -/
  | messageBody (message : String)
  /-- An error object with a single error field. -/
  | errorBody (error : String)
  /-- The creation response: a message field plus the created item. -/
  | createdBody (message : String) (item : Item)
  /-- The listing response: an array of items. -/
  | itemsBody (items : List Item)
  /-- A plain text body (used by the Express fallback error handler). -/
  | textBody (text : String)
deriving Repr, DecidableEq

/-- An HTTP response: status code plus body. -/
structure Response where
  status : Nat
  body : RespBody
deriving Repr, DecidableEq

/-- Errors reaching the Express error-handling middleware chain:
either the body-parser JSON SyntaxError (which carries a body
property), or any other error (multer disk-write failures and the
like), each carrying its internal detail string. -/
inductive MwError where
  | badJsonError (detail : String)
  | otherError (detail : String)
deriving Repr, DecidableEq

/-- The error-handling middleware at the bottom of server.js, composed
with the Express fallback: a SyntaxError with a body property becomes a
400 with an error payload; anything else falls through to the Express
default handler, which finalizes the response as a 500. -/
def errorMiddleware : MwError → Response
  | .badJsonError _ => ⟨400, .errorBody "Invalid JSON format"⟩
  | .otherError _ => ⟨500, .textBody "Internal Server Error"⟩

/-- The express.json body-parsing stage wrapping a route: a malformed
JSON body makes the parser throw a SyntaxError carrying the body, which
the error middleware answers; otherwise the route itself answers. -/
def handleJsonParsedRequest (malformed : Option String) (route : Response) : Response :=
  match malformed with
  | some detail => errorMiddleware (.badJsonError detail)
  | none => route

/-- Lowercase hex digit character for a value below 16. -/
def hexChar (n : Nat) : Char :=
  if n < 10 then Char.ofNat (48 + n) else Char.ofNat (87 + n)

/-- Hex digit expansion with explicit fuel (structural, so that the
kernel can evaluate it). -/
def hexDigitsAux : Nat → Nat → List Char
  | 0, _ => []
  | fuel + 1, n =>
    if n < 16 then [hexChar n]
    else hexDigitsAux fuel (n / 16) ++ [hexChar (n % 16)]

/-- Hex digit expansion of a Nat, most significant first. -/
def hexDigits (n : Nat) : List Char :=
  hexDigitsAux (n + 1) n

/-- The ObjectId generated by the driver for the n-th insert: a
24-character lowercase hex string (modelled as the zero-padded counter). -/
def genId (n : Nat) : String :=
  ⟨List.replicate (24 - (hexDigits n).length) '0' ++ hexDigits n⟩

/-- Hexadecimal character test (both cases), as the ObjectId cast
accepts. -/
def isHexChar (c : Char) : Bool :=
  c.isDigit || (97 ≤ c.toNat && c.toNat ≤ 102) || (65 ≤ c.toNat && c.toNat ≤ 70)

/-- Whether a string casts to an ObjectId (mongoose ObjectId.isValid):
a 24-character hex string, or any 12-character string taken as 12 raw
bytes. Anything else makes findByIdAndDelete reject with a CastError. -/
def isValidObjectId (s : String) : Bool :=
  s.data.length = 12 || (s.data.length = 24 && s.data.all isHexChar)

/-- Database-level errors surfaced by mongoose calls themselves. -/
inductive DbError where
  /-- The filter value did not cast to an ObjectId. -/
  | castError (detail : String)
deriving Repr, DecidableEq

/-- Embeds `Item.findByIdAndDelete(id)`: casts `id` to an ObjectId
(rejecting with a CastError when it is malformed) and removes the
single document whose _id matches, if any. -/
def findByIdAndDelete (items : List Item) (id : String) : Except DbError (List Item) :=
  if isValidObjectId id then
    .ok (items.eraseP (fun it => it.id == id))
  else
    .error (.castError "Cast to ObjectId failed")

/-- Embeds `path.extname(name)` restricted to basenames: the suffix
starting at the last dot, or the empty string when there is no dot, the
only dot leads the name, or the name is the special "..". -/
def extname (s : String) : String :=
  let cs := s.data
  if cs = ['.', '.'] then ""
  else
    let revTail := cs.reverse.takeWhile (fun c => c ≠ '.')
    if revTail.length = cs.length then ""
    else if revTail.length + 1 = cs.length then ""
    else ⟨'.' :: revTail.reverse⟩

/-- The multer diskStorage filename callback:
the current time rendered in decimal, followed by the original
extension. -/
def multerFilename (now : Nat) (originalname : String) : String :=
  toString now ++ extname originalname

/-- The incoming report submission: the multipart form fields (a lookup
from field name to value) and the optional single image file. -/
structure PostRequest where
  body : String → Option String
  file : Option UploadedFile

/-- The environment configuration read by the POST handler. -/
structure Env where
  renderExternalUrl : Option String

/-- Embeds `process.env.RENDER_EXTERNAL_URL || "https://..."`: the
configured external base URL, falling back to the Render URL when the
variable is unset or empty (JS treats the empty string as falsy). -/
def baseUrl (env : Env) : String :=
  match env.renderExternalUrl with
  | some s => if s = "" then "https://lost-found-backend-lrjz.onrender.com" else s
  | none => "https://lost-found-backend-lrjz.onrender.com"

/-- Embeds the `upload.single("image")` middleware: with no file field the
request passes through untouched; with a file it is written to the
uploads blob store under the multer-generated name and attached to the
request, unless the disk write fails, in which case multer forwards the
error to the error-handling chain and the route handler never runs. -/
def uploadSingle (uploadTime : Nat) (diskFail : Option String) (db : DB)
    (f? : Option UploadedFile) : Except MwError (DB × Option StoredFile) :=
  match f? with
  | none => .ok (db, none)
  | some f =>
    match diskFail with
    | some detail => .error (.otherError detail)
    | none =>
      let name := multerFilename uploadTime f.originalname
      .ok (⟨db.items, db.nextId, db.blobs ++ [name]⟩, some ⟨name⟩)

/-- The POST /api/items route handler body (after the upload stage):
destructures the five form fields, builds the image URL from the stored
file if any, constructs and saves the new Item (reported_at defaulting
to the save time), and answers 201 with the saved item; a failing save
is caught and answered as a 500 with a fixed error payload. -/
def postHandler (env : Env) (saveTime : Nat) (persistFail : Option String)
    (db : DB) (body : String → Option String) (file : Option StoredFile) :
    DB × Response :=
  let item_name := body "item_name"
  let description := body "description"
  let location := body "location"
  let contact_number := body "contact_number"
  let ty := body "type"
  let imageUrl : Option String :=
    match file with
    | some f => some (baseUrl env ++ "/uploads/" ++ f.filename)
    | none => none
  match persistFail with
  | some _ => (db, ⟨500, .errorBody "Failed to save item"⟩)
  | none =>
    let newItem : Item :=
      ⟨genId db.nextId, item_name, description, location, contact_number,
        ty, imageUrl, saveTime⟩
    (⟨db.items ++ [newItem], db.nextId + 1, db.blobs⟩,
      ⟨201, .createdBody "✅ Item saved successfully" newItem⟩)

/-- The full POST /api/items pipeline: the upload middleware either
errors out into the error-handling chain (leaving the store untouched)
or hands the augmented request to the route handler. -/
def handlePost (env : Env) (db : DB) (req : PostRequest)
    (uploadTime saveTime : Nat) (diskFail persistFail : Option String) :
    DB × Response :=
  match uploadSingle uploadTime diskFail db req.file with
  | .error e => (db, errorMiddleware e)
  | .ok (db', file) => postHandler env saveTime persistFail db' req.body file

/-- The descending reported_at order used by the listing. -/
def reportedAtGe (a b : Item) : Prop :=
  b.reported_at ≤ a.reported_at

instance : DecidableRel reportedAtGe :=
  fun a b => Nat.decLe b.reported_at a.reported_at

instance : IsTotal Item reportedAtGe :=
  ⟨fun a b => (Nat.le_total b.reported_at a.reported_at).imp id id⟩

instance : IsTrans Item reportedAtGe :=
  ⟨fun _ _ _ h₁ h₂ => Nat.le_trans h₂ h₁⟩

/-- Embeds the sorted find of the listing route, reported_at
descending over the whole collection. -/
def findSortByReportedAtDesc (items : List Item) : List Item :=
  List.insertionSort reportedAtGe items

/-- The GET /api/items handler: answers the sorted collection, or a 500
with a fixed error payload when the read fails. -/
def handleGet (db : DB) (persistFail : Option String) : Response :=
  match persistFail with
  | some _ => ⟨500, .errorBody "Failed to fetch items"⟩
  | none => ⟨200, .itemsBody (findSortByReportedAtDesc db.items)⟩

/-- The DELETE /api/items/:id handler: calls findByIdAndDelete and
answers a fixed confirmation message; any error thrown by the call
(CastError on a malformed id, or an infrastructure failure) is caught
and answered as a 500 with a fixed error payload. -/
def handleDelete (db : DB) (persistFail : Option String) (id : String) :
    DB × Response :=
  match persistFail with
  | some _ => (db, ⟨500, .errorBody "Failed to delete item"⟩)
  | none =>
    match findByIdAndDelete db.items id with
    | .ok items' => (⟨items', db.nextId, db.blobs⟩,
        ⟨200, .messageBody "🗑️ Item deleted successfully"⟩)
    | .error _ => (db, ⟨500, .errorBody "Failed to delete item"⟩)

/-- One POST request event for a sequential (single-writer) run: the
request, the times observed by the two Date.now calls (multer filename,
mongoose save default), and the outcomes of the two external services. -/
structure PostEvent where
  req : PostRequest
  uploadTime : Nat
  saveTime : Nat
  diskFail : Option String
  persistFail : Option String

/-- Sequential execution of a list of POST requests by the single
server process, threading the store. -/
def runPosts (env : Env) (db : DB) : List PostEvent → DB
  | [] => db
  | e :: es =>
    runPosts env
      (handlePost env db e.req e.uploadTime e.saveTime e.diskFail e.persistFail).1 es

/-- The §8 listing scenario: a report submitted at each of the times
1, 2 and 3, named A, B and C. -/
def scenarioEvent (nm : String) (t : Nat) : PostEvent :=
  ⟨⟨fun k => if k = "item_name" then some nm else none, none⟩, t, t, none, none⟩

/-- The store after sequentially submitting A (t=1), B (t=2), C (t=3). -/
def scenarioDb : DB :=
  runPosts ⟨none⟩ ⟨[], 0, []⟩
    [scenarioEvent "A" 1, scenarioEvent "B" 2, scenarioEvent "C" 3]

theorem hexDigitsAux_succ_ne_nil (fuel n : Nat) : hexDigitsAux (fuel + 1) n ≠ [] := by
  unfold hexDigitsAux
  split
  · simp
  · simp

theorem genId_ne_empty (n : Nat) : genId n ≠ "" := by
  intro h
  have hd : (genId n).data = "".data := by rw [h]
  simp only [genId] at hd
  rcases List.append_eq_nil.mp hd with ⟨-, h2⟩
  exact hexDigitsAux_succ_ne_nil n n h2

theorem eraseP_id_eq_filter (l : List Item) (i : String)
    (h : (l.map Item.id).Nodup) :
    l.eraseP (fun it => it.id == i) = l.filter (fun it => it.id != i) := by
  induction l with
  | nil => rfl
  | cons x xs ih =>
    rw [List.map_cons, List.nodup_cons] at h
    by_cases hx : x.id = i
    · rw [List.eraseP_cons_of_pos (by simp [hx]),
        List.filter_cons_of_neg (by simp [hx])]
      symm
      apply List.filter_eq_self.mpr
      intro a ha
      simp only [bne_iff_ne, ne_eq, decide_eq_true_eq]
      intro hai
      exact h.1 (by rw [hx, ← hai]; exact List.mem_map_of_mem Item.id ha)
    · rw [List.eraseP_cons_of_neg (by simp [hx]),
        List.filter_cons_of_pos (by simp [hx])]
      rw [ih h.2]

theorem handlePost_items_cases (env : Env) (db : DB) (req : PostRequest)
    (uploadT saveT : Nat) (diskFail persistFail : Option String) :
    (handlePost env db req uploadT saveT diskFail persistFail).1.items = db.items ∨
    ∃ it : Item, it.reported_at = saveT ∧
      (handlePost env db req uploadT saveT diskFail persistFail).1.items =
        db.items ++ [it] := by
  rcases req with ⟨b, f⟩
  cases f with
  | none =>
    cases persistFail with
    | some d => exact .inl rfl
    | none => exact .inr ⟨_, rfl, rfl⟩
  | some f =>
    cases diskFail with
    | some d => exact .inl rfl
    | none =>
      cases persistFail with
      | some d => exact .inl rfl
      | none => exact .inr ⟨_, rfl, rfl⟩

theorem runPosts_items_sublist (env : Env) (es : List PostEvent) :
    ∀ db : DB, ∃ news : List Item,
      (runPosts env db es).items = db.items ++ news ∧
      List.Sublist (news.map Item.reported_at) (es.map PostEvent.saveTime) := by
  induction es with
  | nil => exact fun db => ⟨[], by simp [runPosts], by simp⟩
  | cons e es ih =>
    intro db
    rcases ih (handlePost env db e.req e.uploadTime e.saveTime e.diskFail e.persistFail).1 with
      ⟨news, hitems, hsub⟩
    rcases handlePost_items_cases env db e.req e.uploadTime e.saveTime e.diskFail
        e.persistFail with hsame | ⟨it, hrep, happ⟩
    · refine ⟨news, ?_, hsub.cons _⟩
      show (runPosts env _ es).items = _
      rw [hitems, hsame]
    · refine ⟨it :: news, ?_, ?_⟩
      · show (runPosts env _ es).items = _
        rw [hitems, happ, List.append_assoc]
        rfl
      · simp only [List.map_cons, hrep]
        exact hsub.cons₂ _

/-- C1: the listing answers the whole collection sorted by reported_at
descending: it is a permutation of the store in descending reported_at
order; in the insert-at-times-1-2-3 scenario the listing is exactly the
reverse of insertion order. -/
theorem listItems_sorted_by_reported_at_desc :
    (∀ db : DB,
      handleGet db none = ⟨200, .itemsBody (findSortByReportedAtDesc db.items)⟩ ∧
      (findSortByReportedAtDesc db.items).Perm db.items ∧
      (findSortByReportedAtDesc db.items).Pairwise reportedAtGe) ∧
    (handleGet scenarioDb none = ⟨200, .itemsBody scenarioDb.items.reverse⟩ ∧
      scenarioDb.items.map Item.item_name = [some "A", some "B", some "C"]) := by
  constructor
  · intro db
    exact ⟨rfl, List.perm_insertionSort reportedAtGe db.items,
      List.sorted_insertionSort reportedAtGe db.items⟩
  · exact ⟨by decide, by decide⟩

/-- C2 counterexample: deleting with the malformed id "abc" on an empty
store is answered with a 500 error payload, not with the success
confirmation shape. -/
theorem deleteById_malformed_id_error_response :
    (handleDelete ⟨[], 0, []⟩ none "abc").2 =
      ⟨500, .errorBody "Failed to delete item"⟩ ∧
    (handleDelete ⟨[], 0, []⟩ none "abc").2 ≠
      ⟨200, .messageBody "🗑️ Item deleted successfully"⟩ :=
  ⟨rfl, by decide⟩

/-- C2 amended: a delete whose id matches no stored Item never throws
an unhandled error and leaves the store unchanged; if the id is a
well-formed ObjectId the response is the same success confirmation as a
real deletion (idempotent no-op), while a malformed id makes the
ObjectId cast throw, which the handler catches and answers as a 500
error payload. -/
theorem deleteById_absent_or_malformed_id (db : DB) (id : String)
    (habs : ∀ it ∈ db.items, it.id ≠ id) :
    handleDelete db none id =
      (db,
        if isValidObjectId id then ⟨200, .messageBody "🗑️ Item deleted successfully"⟩
        else ⟨500, .errorBody "Failed to delete item"⟩) := by
  unfold handleDelete findByIdAndDelete
  by_cases hv : isValidObjectId id
  · have herase : db.items.eraseP (fun it => it.id == id) = db.items := by
      apply List.eraseP_of_forall_not
      intro a ha
      simpa using habs a ha
    simp [hv, herase]
  · simp [hv]

/-- Witness for the amended C2 at a concrete input: deleting a
well-formed but absent id from a one-item store answers the success
confirmation and changes nothing. -/
theorem deleteById_absent_or_malformed_id_witness :
    handleDelete ⟨[⟨"aaaaaaaaaaaaaaaaaaaaaaaa", none, none, none, none, none, none, 5⟩], 1, []⟩
        none "ffffffffffffffffffffffff" =
      (⟨[⟨"aaaaaaaaaaaaaaaaaaaaaaaa", none, none, none, none, none, none, 5⟩], 1, []⟩,
        if isValidObjectId "ffffffffffffffffffffffff" then
          ⟨200, .messageBody "🗑️ Item deleted successfully"⟩
        else ⟨500, .errorBody "Failed to delete item"⟩) :=
  deleteById_absent_or_malformed_id
    ⟨[⟨"aaaaaaaaaaaaaaaaaaaaaaaa", none, none, none, none, none, none, 5⟩], 1, []⟩
    "ffffffffffffffffffffffff" (by decide)

/-- C3: deletion is exactly a frame-preserving removal: with valid
unique stored ids, the store after a delete is the prior store with
precisely the records of that id removed (at most one), every other
record untouched and in order; an id matching nothing (including any
malformed id) leaves the store unchanged. -/
theorem deleteById_frame (db : DB) (id : String)
    (hval : ∀ it ∈ db.items, isValidObjectId it.id = true)
    (hnd : (db.items.map Item.id).Nodup) :
    (handleDelete db none id).1.items = db.items.filter (fun it => it.id != id) := by
  unfold handleDelete findByIdAndDelete
  by_cases hv : isValidObjectId id
  · simp only [hv, if_true]
    exact eraseP_id_eq_filter _ _ hnd
  · simp only [hv, if_false, Bool.false_eq_true]
    symm
    apply List.filter_eq_self.mpr
    intro it hit
    simp only [bne_iff_ne, ne_eq, decide_eq_true_eq]
    intro heq
    exact hv (heq ▸ hval it hit)

/-- Witness for C3 at a concrete input: deleting the first id of a
two-item store removes exactly that record. -/
theorem deleteById_frame_witness :
    (handleDelete
        ⟨[⟨"aaaaaaaaaaaaaaaaaaaaaaaa", none, none, none, none, none, none, 1⟩,
          ⟨"bbbbbbbbbbbbbbbbbbbbbbbb", none, none, none, none, none, none, 2⟩], 2, []⟩
        none "aaaaaaaaaaaaaaaaaaaaaaaa").1.items =
      List.filter (fun it => it.id != "aaaaaaaaaaaaaaaaaaaaaaaa")
        [⟨"aaaaaaaaaaaaaaaaaaaaaaaa", none, none, none, none, none, none, 1⟩,
         ⟨"bbbbbbbbbbbbbbbbbbbbbbbb", none, none, none, none, none, none, 2⟩] :=
  deleteById_frame
    ⟨[⟨"aaaaaaaaaaaaaaaaaaaaaaaa", none, none, none, none, none, none, 1⟩,
      ⟨"bbbbbbbbbbbbbbbbbbbbbbbb", none, none, none, none, none, none, 2⟩], 2, []⟩
    "aaaaaaaaaaaaaaaaaaaaaaaa" (by decide) (by decide)

/-- C4: a report submission with no image file succeeds: the stored
Item has image_url none, the response is a 201 carrying the created
item with its generated identifier populated, and the item is appended
to the store. -/
theorem createItem_without_image (env : Env) (db : DB)
    (body : String → Option String) (uploadT saveT : Nat) :
    ∃ it : Item,
      handlePost env db ⟨body, none⟩ uploadT saveT none none =
        (⟨db.items ++ [it], db.nextId + 1, db.blobs⟩,
          ⟨201, .createdBody "✅ Item saved successfully" it⟩) ∧
      it.image_url = none ∧ it.id = genId db.nextId ∧ it.id ≠ "" := by
  refine ⟨⟨genId db.nextId, body "item_name", body "description", body "location",
    body "contact_number", body "type", none, saveT⟩, rfl, rfl, rfl, genId_ne_empty _⟩

/-- C5: a report submission carrying an image stores the file under a
name derived from the current time plus the original extension, and
sets the image URL to the configured base URL plus /uploads/ plus that
stored name. -/
theorem createItem_with_image (env : Env) (db : DB)
    (body : String → Option String) (origname : String) (uploadT saveT : Nat) :
    ∃ it : Item,
      handlePost env db ⟨body, some ⟨origname⟩⟩ uploadT saveT none none =
        (⟨db.items ++ [it], db.nextId + 1,
            db.blobs ++ [toString uploadT ++ extname origname]⟩,
          ⟨201, .createdBody "✅ Item saved successfully" it⟩) ∧
      it.image_url =
        some (baseUrl env ++ "/uploads/" ++ (toString uploadT ++ extname origname)) := by
  refine ⟨⟨genId db.nextId, body "item_name", body "description", body "location",
    body "contact_number", body "type",
    some (baseUrl env ++ "/uploads/" ++ (toString uploadT ++ extname origname)), saveT⟩,
    rfl, rfl⟩

/-- C6: when the blob-store write of the image fails, the upload
middleware forwards the error, the route handler never runs, no Item is
created (the whole store, blobs included, is unchanged) and the failure
surfaces as a 500. -/
theorem createItem_upload_failure_aborts (env : Env) (db : DB)
    (body : String → Option String) (f : UploadedFile) (uploadT saveT : Nat)
    (detail : String) (persistFail : Option String) :
    handlePost env db ⟨body, some f⟩ uploadT saveT (some detail) persistFail =
      (db, ⟨500, .textBody "Internal Server Error"⟩) := rfl

/-- C7: a Persistence Service failure during create, list or delete is
answered with a 500 whose body is the fixed generic message of that
route, independent of the internal error detail. -/
theorem persistence_failure_generic_error (env : Env) (db : DB) (req : PostRequest)
    (uploadT saveT : Nat) (detail : String) (id : String) :
    (handlePost env db req uploadT saveT none (some detail)).2 =
      ⟨500, .errorBody "Failed to save item"⟩ ∧
    handleGet db (some detail) = ⟨500, .errorBody "Failed to fetch items"⟩ ∧
    (handleDelete db (some detail) id).2 = ⟨500, .errorBody "Failed to delete item"⟩ := by
  refine ⟨?_, rfl, rfl⟩
  rcases req with ⟨b, f⟩
  cases f <;> rfl

/-- C8: a request whose JSON body is malformed is answered by the error
middleware with a 400 and a structured error payload, whatever the
route would have answered. -/
theorem malformed_json_yields_400 (detail : String) (route : Response) :
    handleJsonParsedRequest (some detail) route =
      ⟨400, .errorBody "Invalid JSON format"⟩ := rfl

/-- C9: under sequential single-writer execution with real (weakly
increasing) clock readings, the reported_at values of the stored items
are non-decreasing in insertion order, starting from an empty store. -/
theorem reported_at_monotone (env : Env) (es : List PostEvent)
    (n : Nat) (bl : List String)
    (hclock : (es.map PostEvent.saveTime).Pairwise (· ≤ ·)) :
    ((runPosts env ⟨[], n, bl⟩ es).items.map Item.reported_at).Pairwise (· ≤ ·) := by
  rcases runPosts_items_sublist env es ⟨[], n, bl⟩ with ⟨news, hitems, hsub⟩
  rw [hitems]
  simp only [List.nil_append]
  exact hclock.sublist hsub

/-- Witness for C9 at a concrete input: two sequential reports saved at
times 1 and 2 leave a store whose reported_at values are
non-decreasing. -/
theorem reported_at_monotone_witness :
    ((runPosts ⟨none⟩ ⟨[], 0, []⟩
        [⟨⟨fun _ => none, none⟩, 1, 1, none, none⟩,
         ⟨⟨fun _ => none, none⟩, 2, 2, none, none⟩]).items.map
      Item.reported_at).Pairwise (· ≤ ·) :=
  reported_at_monotone ⟨none⟩
    [⟨⟨fun _ => none, none⟩, 1, 1, none, none⟩,
     ⟨⟨fun _ => none, none⟩, 2, 2, none, none⟩] 0 [] (by decide)

/-- C10: the created Item is built from the five named form fields
alone (plus the computed image URL and the defaulted reported_at): two
submissions whose bodies agree on those five fields produce identical
results, so any extra form fields are ignored and cannot reach the
stored record. -/
theorem extra_fields_ignored (env : Env) (db : DB) (f : Option UploadedFile)
    (uploadT saveT : Nat) (diskFail persistFail : Option String)
    (b₁ b₂ : String → Option String)
    (h : ∀ k ∈ ["item_name", "description", "location", "contact_number", "type"],
      b₁ k = b₂ k) :
    handlePost env db ⟨b₁, f⟩ uploadT saveT diskFail persistFail =
      handlePost env db ⟨b₂, f⟩ uploadT saveT diskFail persistFail := by
  have h₁ := h "item_name" (by simp)
  have h₂ := h "description" (by simp)
  have h₃ := h "location" (by simp)
  have h₄ := h "contact_number" (by simp)
  have h₅ := h "type" (by simp)
  cases f with
  | none =>
    cases persistFail with
    | some d => rfl
    | none => simp only [handlePost, uploadSingle, postHandler, h₁, h₂, h₃, h₄, h₅]
  | some f =>
    cases diskFail with
    | some d => rfl
    | none =>
      cases persistFail with
      | some d => rfl
      | none => simp only [handlePost, uploadSingle, postHandler, h₁, h₂, h₃, h₄, h₅]

/-- Witness for C10 at a concrete input: a body carrying only an
unknown extra field creates the same record as the empty body. -/
theorem extra_fields_ignored_witness :
    handlePost ⟨none⟩ ⟨[], 0, []⟩
        ⟨fun k => if k = "reward_amount" then some "100" else none, none⟩ 0 0 none none =
      handlePost ⟨none⟩ ⟨[], 0, []⟩ ⟨fun _ => none, none⟩ 0 0 none none :=
  extra_fields_ignored ⟨none⟩ ⟨[], 0, []⟩ none 0 0 none none
    (fun k => if k = "reward_amount" then some "100" else none) (fun _ => none)
    (by intro k hk; fin_cases hk <;> rfl)
